import Mathlib

/-!
Verification of the visa-free stay analyzer (`visa_stay_analyzer.py`).

The development shallowly embeds the core accounting functions:
`calculate_days_between`, `calculate_days_in_window`, `calculate_stays`,
the per-row event extraction of `load_flights`, and the projection
search of `print_future_availability`.  Python `datetime` values are
modelled as a calendar day (`Int`, days since an arbitrary epoch) paired
with a time-of-day rank (`Nat`), ordered lexicographically, which is
exactly how Python compares two `datetime`s; `.date()` subtraction
`(d2.date() - d1.date()).days` becomes `d2.day - d1.day`.
-/

/-- A Python `datetime`: calendar day plus time-of-day rank.
Comparison of `datetime`s is lexicographic (first the calendar date,
then the time of day); `.day` is the calendar date used by `.date()`. -/
structure PyDateTime where
  day : Int
  tod : Nat
deriving DecidableEq, Repr

namespace PyDateTime

instance : LE PyDateTime :=
  ⟨fun a b => a.day < b.day ∨ (a.day = b.day ∧ a.tod ≤ b.tod)⟩

instance : LT PyDateTime :=
  ⟨fun a b => a.day < b.day ∨ (a.day = b.day ∧ a.tod < b.tod)⟩

instance decLE : ∀ a b : PyDateTime, Decidable (a ≤ b) := fun a b =>
  inferInstanceAs (Decidable (a.day < b.day ∨ (a.day = b.day ∧ a.tod ≤ b.tod)))

instance decLT : ∀ a b : PyDateTime, Decidable (a < b) := fun a b =>
  inferInstanceAs (Decidable (a.day < b.day ∨ (a.day = b.day ∧ a.tod < b.tod)))

instance : LinearOrder PyDateTime where
  le_refl a := Or.inr ⟨rfl, le_refl _⟩
  le_trans a b c hab hbc := by
    have h1 : a.day < b.day ∨ (a.day = b.day ∧ a.tod ≤ b.tod) := hab
    have h2 : b.day < c.day ∨ (b.day = c.day ∧ b.tod ≤ c.tod) := hbc
    show a.day < c.day ∨ (a.day = c.day ∧ a.tod ≤ c.tod)
    omega
  le_antisymm a b hab hba := by
    have h1 : a.day < b.day ∨ (a.day = b.day ∧ a.tod ≤ b.tod) := hab
    have h2 : b.day < a.day ∨ (b.day = a.day ∧ b.tod ≤ a.tod) := hba
    have hd : a.day = b.day ∧ a.tod = b.tod := by omega
    cases a
    cases b
    simp only at hd
    simp [hd.1, hd.2]
  le_total a b := by
    show (a.day < b.day ∨ (a.day = b.day ∧ a.tod ≤ b.tod))
      ∨ (b.day < a.day ∨ (b.day = a.day ∧ b.tod ≤ a.tod))
    omega
  lt_iff_le_not_le a b := by
    show (a.day < b.day ∨ (a.day = b.day ∧ a.tod < b.tod))
      ↔ (a.day < b.day ∨ (a.day = b.day ∧ a.tod ≤ b.tod))
        ∧ ¬ (b.day < a.day ∨ (b.day = a.day ∧ b.tod ≤ a.tod))
    omega
  decidableLE := decLE
  decidableEq := inferInstance
  decidableLT := decLT

end PyDateTime

/-- `calculate_days_between(date1, date2)` from `visa_stay_analyzer.py`:
returns 0 if either argument is `None` (Python `datetime`s are always
truthy, so `not date1` means `date1 is None`) or if `date2 < date1`;
otherwise `(date2.date() - date1.date()).days + 1`. -/
def calculate_days_between : Option PyDateTime → Option PyDateTime → Int
  | some date1, some date2 =>
      if date2 < date1 then 0 else date2.day - date1.day + 1
  | _, _ => 0

/-- A stay record as consumed by `calculate_days_in_window`: the
`entry_date`/`exit_date` fields of the stay dict, with both dates
resolved (present) `datetime`s. -/
structure Stay where
  entry_date : PyDateTime
  exit_date : PyDateTime
deriving DecidableEq, Repr

/-- The loop body of `calculate_days_in_window` for a single stay:
clamp to the window and, when the guard
`window_exit >= window_start and window_entry <= window_end` holds,
count the inclusive days between the clamped bounds. -/
def stayDays (stay : Stay) (window_start window_end : PyDateTime) : Int :=
  let window_entry := max stay.entry_date window_start
  let window_exit := min stay.exit_date window_end
  if window_start ≤ window_exit ∧ window_entry ≤ window_end then
    calculate_days_between (some window_entry) (some window_exit)
  else 0

/-- `calculate_days_in_window(stays, window_start, window_end)` from
`visa_stay_analyzer.py`: fold over the stays, adding the clamped
inclusive day count of each stay that passes the overlap guard. -/
def calculate_days_in_window (stays : List Stay)
    (window_start window_end : PyDateTime) : Int :=
  stays.foldl (fun total_days stay =>
    let window_entry := max stay.entry_date window_start
    let window_exit := min stay.exit_date window_end
    if window_start ≤ window_exit ∧ window_entry ≤ window_end then
      total_days + calculate_days_between (some window_entry) (some window_exit)
    else total_days) 0

/-- Two stays are day-disjoint in order: the first exits on a strictly
earlier calendar day than the second enters. -/
def dayDisjoint (s t : Stay) : Prop := s.exit_date.day < t.entry_date.day

instance : ∀ s t : Stay, Decidable (dayDisjoint s t) := fun s t =>
  inferInstanceAs (Decidable (s.exit_date.day < t.entry_date.day))

/-- A flight record as built by `load_flights` in
`visa_stay_analyzer.py` (the per-row dict appended to `flights`).
`from`/`to` are rendered as `from_airport`/`to_airport` — the local
variable names the source itself uses. -/
structure Flight where
  date : String
  flight : String
  from_airport : String
  to_airport : String
  is_arrival : Bool
  is_departure : Bool
  arrival_time : Option PyDateTime
  departure_time : Option PyDateTime
deriving DecidableEq, Repr

/-- A stay dict as produced by `calculate_stays`: the matched entry and
exit flights together with `entry_date = entry['arrival_time']` and
`exit_date = exit['departure_time']`, which may be `None` when the
flight's timestamps could not be parsed. -/
structure RawStay where
  entry : Flight
  exit : Flight
  entry_date : Option PyDateTime
  exit_date : Option PyDateTime
deriving DecidableEq, Repr

/-- The loop of `calculate_stays`: `current_entry` is the single-variable
pending-entry state.  An arrival always overwrites `current_entry`; a
departure with a pending entry emits one stay and clears the state; a
departure without a pending entry (or a flight that is neither) leaves
the state unchanged and emits nothing. -/
def calculate_stays_go (current_entry : Option Flight) :
    List Flight → List RawStay
  | [] => []
  | flight :: rest =>
      if flight.is_arrival then
        calculate_stays_go (some flight) rest
      else
        match current_entry with
        | some entry =>
            if flight.is_departure then
              { entry := entry, exit := flight,
                entry_date := entry.arrival_time,
                exit_date := flight.departure_time }
                :: calculate_stays_go none rest
            else
              calculate_stays_go (some entry) rest
        | none => calculate_stays_go none rest

/-- `calculate_stays(flights)` from `visa_stay_analyzer.py`: scan the
flights with `current_entry = None` initially. -/
def calculate_stays (flights : List Flight) : List RawStay :=
  calculate_stays_go none flights

/-- One CSV row of the Flighty export as read by `load_flights`, after
cell-level parsing: each timestamp field holds the result of
`parse_datetime` on the corresponding column (`none` when the cell is
empty or unparseable — `parse_datetime` returns `None` rather than
raising), and `canceled` holds the parsed boolean of the `Canceled`
column (`row['Canceled'].lower() == 'true'`). -/
structure FlightRow where
  date : String
  airline : String
  flight_number : String
  from_airport : String
  to_airport : String
  canceled : Bool
  gate_arrival_actual : Option PyDateTime
  landing_actual : Option PyDateTime
  gate_departure_actual : Option PyDateTime
  take_off_actual : Option PyDateTime
deriving DecidableEq, Repr

/-- Python's `x or y` on two optional datetimes: the left value when it
is truthy (a `datetime` is always truthy), otherwise the right one. -/
def pyOr (a b : Option PyDateTime) : Option PyDateTime :=
  match a with
  | some x => some x
  | none => b

/-- The per-row body of `load_flights`: skip canceled rows, classify
arrival/departure by airport-set membership, and for border-crossing
rows build the flight dict with
`arrival_time = parse(Gate Arrival (Actual)) or parse(Landing (Actual))`
and
`departure_time = parse(Gate Departure (Actual)) or parse(Take off (Actual))`.
Returns `none` when the row is skipped, `some` the appended dict
otherwise.  Note the source appends the row even when both timestamp
fields of the relevant direction are unresolvable. -/
def load_flights_row (airport_codes : List String) (row : FlightRow) :
    Option Flight :=
  if row.canceled then none
  else
    let is_arrival : Bool :=
      airport_codes.contains row.to_airport
        && !(airport_codes.contains row.from_airport)
    let is_departure : Bool :=
      airport_codes.contains row.from_airport
        && !(airport_codes.contains row.to_airport)
    if is_arrival || is_departure then
      some { date := row.date,
             flight := row.airline ++ " " ++ row.flight_number,
             from_airport := row.from_airport,
             to_airport := row.to_airport,
             is_arrival := is_arrival,
             is_departure := is_departure,
             arrival_time := pyOr row.gate_arrival_actual row.landing_actual,
             departure_time :=
               pyOr row.gate_departure_actual row.take_off_actual }
    else none

/-- The flight list `load_flights` accumulates before its final sort
(the sort key is `arrival_time`/`departure_time`; in Python it raises a
`TypeError` when such a key is `None` and at least two flights must be
compared). -/
def load_flights_events (airport_codes : List String)
    (rows : List FlightRow) : List Flight :=
  rows.filterMap (load_flights_row airport_codes)

/-- `d + timedelta(days=n)`: shifts the calendar day, keeping the time
of day. -/
def addDays (d : PyDateTime) (n : Int) : PyDateTime :=
  { day := d.day + n, tod := d.tod }

/-- The recomputation inside the projection loop of
`print_future_availability`: for a candidate `days_forward`, the days
used in the rolling window
`[future_date - (window_days - 1) days, future_date]` where
`future_date = today + days_forward days`.  At `days_forward = 0` this
is the usage at the reference date itself. -/
def future_days_used (stays : List Stay) (today : PyDateTime)
    (window_days days_forward : Int) : Int :=
  let future_date := addDays today days_forward
  let future_window_start := addDays future_date (-(window_days - 1))
  calculate_days_in_window stays future_window_start future_date

/-- Outcome of `print_future_availability` for one desired stay length:
skipped as infeasible by the consecutive cap (`continue`), already
available today, available after waiting `days_forward` days, or not
determinable within the horizon. -/
inductive AvailabilityResult where
  | skippedInfeasible
  | availableToday
  | waitUntil (days_forward : Nat)
  | cannotDetermine
deriving DecidableEq, Repr

/-- The per-desired-length logic of `print_future_availability`:
`if desired_days > max_consecutive_days > 0: continue`; then
`max_used_days = max_days_in_window - desired_days` (inlined below); if
`total_days_in_window <= max_used_days` the stay is available today;
otherwise scan `days_forward in range(1, 365)` and return the first
day whose recomputed window usage is within `max_used_days`, or
report that no date was found.  `max_consecutive_days` is an `Int`
here; the `float('inf')` passed when no cap is configured behaves, for
the chained comparison `desired > cap > 0`, like any value making the
guard false (e.g. a nonpositive one). -/
def find_future_availability (stays : List Stay) (today : PyDateTime)
    (window_days max_days_in_window max_consecutive_days
      total_days_in_window desired_days : Int) : AvailabilityResult :=
  if desired_days > max_consecutive_days ∧ max_consecutive_days > 0 then
    .skippedInfeasible
  else if total_days_in_window ≤ max_days_in_window - desired_days then
    .availableToday
  else
    match (List.range' 1 364).find? (fun (days_forward : Nat) =>
      decide (future_days_used stays today window_days (days_forward : Int)
        ≤ max_days_in_window - desired_days)) with
    | some days_forward => .waitUntil days_forward
    | none => .cannotDetermine

/-- The loop of `print_future_availability` over desired stay lengths:
`[30, 60]` when `max_consecutive_days >= 60`, else `[30]`; each length
gets its own outcome and a non-found outcome for one length does not
stop the remaining lengths from being processed. -/
def print_future_availability_results (stays : List Stay)
    (today : PyDateTime)
    (window_days max_days_in_window max_consecutive_days
      total_days_in_window : Int) : List (Int × AvailabilityResult) :=
  (if max_consecutive_days ≥ 60 then [30, 60] else [30]).map
    (fun desired_days =>
      (desired_days,
        find_future_availability stays today window_days max_days_in_window
          max_consecutive_days total_days_in_window desired_days))

namespace PyDateTime

theorem le_def (a b : PyDateTime) :
    a ≤ b ↔ a.day < b.day ∨ (a.day = b.day ∧ a.tod ≤ b.tod) := Iff.rfl

theorem lt_def (a b : PyDateTime) :
    a < b ↔ a.day < b.day ∨ (a.day = b.day ∧ a.tod < b.tod) := Iff.rfl

theorem day_le_of_le {a b : PyDateTime} (h : a ≤ b) : a.day ≤ b.day := by
  rw [le_def] at h
  omega

theorem day_max (a b : PyDateTime) : (max a b).day = max a.day b.day := by
  rcases le_total a b with h | h
  · rw [max_eq_right h, max_eq_right (day_le_of_le h)]
  · rw [max_eq_left h, max_eq_left (day_le_of_le h)]

theorem day_min (a b : PyDateTime) : (min a b).day = min a.day b.day := by
  rcases le_total a b with h | h
  · rw [min_eq_left h, min_eq_left (day_le_of_le h)]
  · rw [min_eq_right h, min_eq_right (day_le_of_le h)]

end PyDateTime

theorem calculate_days_in_window_nil (ws we : PyDateTime) :
    calculate_days_in_window [] ws we = 0 := rfl

theorem foldl_days_eq (ws we : PyDateTime) : ∀ (l : List Stay) (a : Int),
    l.foldl (fun total_days stay =>
      let window_entry := max stay.entry_date ws
      let window_exit := min stay.exit_date we
      if ws ≤ window_exit ∧ window_entry ≤ we then
        total_days + calculate_days_between (some window_entry) (some window_exit)
      else total_days) a
    = a + (l.map (fun s => stayDays s ws we)).sum := by
  intro l
  induction l with
  | nil => intro a; simp
  | cons s rest ih =>
      intro a
      rw [List.foldl_cons, ih]
      simp only [List.map_cons, List.sum_cons, stayDays]
      by_cases h : ws ≤ min s.exit_date we ∧ max s.entry_date ws ≤ we
      · simp only [if_pos h]
        ring
      · simp only [if_neg h]
        ring

theorem calculate_days_in_window_eq_sum (l : List Stay) (ws we : PyDateTime) :
    calculate_days_in_window l ws we = (l.map (fun s => stayDays s ws we)).sum := by
  rw [calculate_days_in_window, foldl_days_eq]
  ring

theorem calculate_days_in_window_cons (s : Stay) (rest : List Stay)
    (ws we : PyDateTime) :
    calculate_days_in_window (s :: rest) ws we
      = stayDays s ws we + calculate_days_in_window rest ws we := by
  rw [calculate_days_in_window_eq_sum, calculate_days_in_window_eq_sum,
    List.map_cons, List.sum_cons]

theorem stayDays_of_clamped_le (s : Stay) (ws we : PyDateTime)
    (h : max s.entry_date ws ≤ min s.exit_date we) :
    stayDays s ws we
      = calculate_days_between (some (max s.entry_date ws))
          (some (min s.exit_date we)) := by
  have h1 : ws ≤ min s.exit_date we := le_trans (le_max_right _ _) h
  have h2 : max s.entry_date ws ≤ we := le_trans h (min_le_right _ _)
  simp only [stayDays]
  rw [if_pos ⟨h1, h2⟩]

theorem stayDays_of_clamped_empty (s : Stay) (ws we : PyDateTime)
    (h : ¬ max s.entry_date ws ≤ min s.exit_date we) :
    stayDays s ws we = 0 := by
  simp only [stayDays]
  by_cases hc : ws ≤ min s.exit_date we ∧ max s.entry_date ws ≤ we
  · rw [if_pos hc]
    simp only [calculate_days_between]
    rw [if_pos (not_le.mp h)]
  · rw [if_neg hc]

/-- C1: `calculate_days_in_window` clamps each stay to the window
(`window_entry = max(entry_date, window_start)`,
`window_exit = min(exit_date, window_end)`), the stay contributes
`days_between` of the clamped bounds when the clamped interval is
non-empty and 0 otherwise; a stay fully inside the window contributes
exactly `days_between(entry_date, exit_date)`, and a stay fully outside
the window contributes 0. -/
theorem claim_C1_window_clamping (stay : Stay) (rest : List Stay)
    (ws we : PyDateTime) :
    (max stay.entry_date ws ≤ min stay.exit_date we →
      calculate_days_in_window (stay :: rest) ws we
        = calculate_days_between (some (max stay.entry_date ws))
            (some (min stay.exit_date we))
          + calculate_days_in_window rest ws we)
    ∧ (¬ max stay.entry_date ws ≤ min stay.exit_date we →
      calculate_days_in_window (stay :: rest) ws we
        = calculate_days_in_window rest ws we)
    ∧ (ws ≤ stay.entry_date → stay.exit_date ≤ we →
      calculate_days_in_window (stay :: rest) ws we
        = calculate_days_between (some stay.entry_date) (some stay.exit_date)
          + calculate_days_in_window rest ws we)
    ∧ (stay.exit_date < ws ∨ we < stay.entry_date →
      calculate_days_in_window (stay :: rest) ws we
        = calculate_days_in_window rest ws we) := by
  refine ⟨fun h => ?_, fun h => ?_, fun hin hout => ?_, fun h => ?_⟩
  · rw [calculate_days_in_window_cons, stayDays_of_clamped_le stay ws we h]
  · rw [calculate_days_in_window_cons, stayDays_of_clamped_empty stay ws we h]
    ring
  · rw [calculate_days_in_window_cons]
    simp only [stayDays]
    rw [max_eq_left hin, min_eq_left hout]
    by_cases hc : ws ≤ stay.exit_date ∧ stay.entry_date ≤ we
    · rw [if_pos hc]
    · rw [if_neg hc]
      have hlt : stay.exit_date < stay.entry_date := by
        rcases not_and_or.mp hc with hx | hx
        · exact lt_of_lt_of_le (not_le.mp hx) hin
        · exact lt_of_le_of_lt hout (not_le.mp hx)
      simp only [calculate_days_between]
      rw [if_pos hlt]
  · rw [calculate_days_in_window_cons, stayDays_of_clamped_empty stay ws we ?_]
    · ring
    · rcases h with h | h
      · exact not_le.mpr (lt_of_le_of_lt (min_le_left _ _)
          (lt_of_lt_of_le h (le_max_right _ _)))
      · exact not_le.mpr (lt_of_le_of_lt (min_le_right _ _)
          (lt_of_lt_of_le h (le_max_left _ _)))

/-- Witness for C1 at concrete inputs: a stay [day 5, day 9] inside the
window [day 0, day 30] contributes days_between(entry, exit), and a
stay [day 40, day 50] fully after the window contributes nothing. -/
theorem claim_C1_witness :
    calculate_days_in_window [⟨⟨5, 0⟩, ⟨9, 0⟩⟩] ⟨0, 0⟩ ⟨30, 0⟩
      = calculate_days_between (some ⟨5, 0⟩) (some ⟨9, 0⟩)
        + calculate_days_in_window [] ⟨0, 0⟩ ⟨30, 0⟩
    ∧ calculate_days_in_window [⟨⟨40, 0⟩, ⟨50, 0⟩⟩] ⟨0, 0⟩ ⟨30, 0⟩
      = calculate_days_in_window [] ⟨0, 0⟩ ⟨30, 0⟩ := by
  constructor
  · exact (claim_C1_window_clamping ⟨⟨5, 0⟩, ⟨9, 0⟩⟩ [] ⟨0, 0⟩ ⟨30, 0⟩).2.2.1
      (by decide) (by decide)
  · exact (claim_C1_window_clamping ⟨⟨40, 0⟩, ⟨50, 0⟩⟩ [] ⟨0, 0⟩ ⟨30, 0⟩).2.2.2
      (Or.inr (by decide))

/-- C2: day counting is inclusive of both boundary dates: whenever
`a ≤ b` (as Python compares `datetime`s), `calculate_days_between`
returns the whole-day difference of the calendar dates plus 1, and in
particular `days_between(a, a) = 1` for any `a`. -/
theorem claim_C2_inclusive_counting (a b : PyDateTime) (h : a ≤ b) :
    calculate_days_between (some a) (some b) = (b.day - a.day) + 1
    ∧ calculate_days_between (some a) (some a) = 1 := by
  constructor
  · simp only [calculate_days_between]
    rw [if_neg (not_lt.mpr h)]
  · simp only [calculate_days_between]
    rw [if_neg (lt_irrefl a)]
    ring

/-- Witness for C2 at day 0 time 0 versus day 3 time 5. -/
theorem claim_C2_witness :
    calculate_days_between (some ⟨0, 0⟩) (some ⟨3, 5⟩) = 4
    ∧ calculate_days_between (some ⟨0, 0⟩) (some ⟨0, 0⟩) = 1 := by
  have h := claim_C2_inclusive_counting ⟨0, 0⟩ ⟨3, 5⟩ (by decide)
  refine ⟨?_, h.2⟩
  rw [h.1]
  decide

/-- C3: `calculate_days_between` returns 0 (never a negative number)
whenever the end date precedes the start date; consequently a malformed
stay whose exit precedes its entry adds nothing to any window total. -/
theorem claim_C3_never_negative (a b : PyDateTime) (h : b < a) :
    calculate_days_between (some a) (some b) = 0
    ∧ ∀ (stay : Stay) (rest : List Stay) (ws we : PyDateTime),
        stay.exit_date < stay.entry_date →
        calculate_days_in_window (stay :: rest) ws we
          = calculate_days_in_window rest ws we := by
  constructor
  · simp only [calculate_days_between]
    rw [if_pos h]
  · intro stay rest ws we hmal
    rw [calculate_days_in_window_cons, stayDays_of_clamped_empty stay ws we
      (not_le.mpr (lt_of_le_of_lt (min_le_left _ _)
        (lt_of_lt_of_le hmal (le_max_left _ _))))]
    ring

/-- Witness for C3: day 2 before day 7, and a malformed stay
[entry day 7, exit day 2] contributing nothing. -/
theorem claim_C3_witness :
    calculate_days_between (some ⟨7, 0⟩) (some ⟨2, 0⟩) = 0
    ∧ calculate_days_in_window [⟨⟨7, 0⟩, ⟨2, 0⟩⟩] ⟨0, 0⟩ ⟨30, 0⟩
        = calculate_days_in_window [] ⟨0, 0⟩ ⟨30, 0⟩ := by
  have h := claim_C3_never_negative ⟨7, 0⟩ ⟨2, 0⟩ (by decide)
  exact ⟨h.1, h.2 ⟨⟨7, 0⟩, ⟨2, 0⟩⟩ [] ⟨0, 0⟩ ⟨30, 0⟩ (by decide)⟩

/-- C9: `calculate_days_between` is total on optional inputs: if either
argument is `None` it returns 0 (and, being a total Lean function over
`Option`, it can never raise), so a missing date never yields an error
or a nonzero contribution. -/
theorem claim_C9_none_yields_zero (d : Option PyDateTime) :
    calculate_days_between none d = 0
    ∧ calculate_days_between d none = 0 := by
  cases d
  · exact ⟨rfl, rfl⟩
  · exact ⟨rfl, rfl⟩

/-- C10: window accounting is additive over the stay list, and hence
invariant under permutation of the stays. -/
theorem claim_C10_additive (s1 s2 : List Stay) (ws we : PyDateTime) :
    calculate_days_in_window (s1 ++ s2) ws we
      = calculate_days_in_window s1 ws we + calculate_days_in_window s2 ws we
    ∧ ∀ t1 t2 : List Stay, t1.Perm t2 →
        calculate_days_in_window t1 ws we = calculate_days_in_window t2 ws we := by
  constructor
  · rw [calculate_days_in_window_eq_sum, calculate_days_in_window_eq_sum,
      calculate_days_in_window_eq_sum, List.map_append, List.sum_append]
  · intro t1 t2 hperm
    rw [calculate_days_in_window_eq_sum, calculate_days_in_window_eq_sum]
    exact (hperm.map _).sum_eq

/-- Witness for C10: concatenating and swapping two singleton stay
lists over the window [day 0, day 30]. -/
theorem claim_C10_witness :
    calculate_days_in_window [⟨⟨1, 0⟩, ⟨2, 0⟩⟩, ⟨⟨5, 0⟩, ⟨6, 0⟩⟩] ⟨0, 0⟩ ⟨30, 0⟩
      = calculate_days_in_window [⟨⟨1, 0⟩, ⟨2, 0⟩⟩] ⟨0, 0⟩ ⟨30, 0⟩
        + calculate_days_in_window [⟨⟨5, 0⟩, ⟨6, 0⟩⟩] ⟨0, 0⟩ ⟨30, 0⟩
    ∧ calculate_days_in_window [⟨⟨1, 0⟩, ⟨2, 0⟩⟩, ⟨⟨5, 0⟩, ⟨6, 0⟩⟩] ⟨0, 0⟩ ⟨30, 0⟩
      = calculate_days_in_window [⟨⟨5, 0⟩, ⟨6, 0⟩⟩, ⟨⟨1, 0⟩, ⟨2, 0⟩⟩] ⟨0, 0⟩ ⟨30, 0⟩ := by
  have h := claim_C10_additive [⟨⟨1, 0⟩, ⟨2, 0⟩⟩] [⟨⟨5, 0⟩, ⟨6, 0⟩⟩] ⟨0, 0⟩ ⟨30, 0⟩
  exact ⟨h.1, h.2 _ _ (List.Perm.swap _ _ _)⟩

theorem stayDays_le_bound (s : Stay) (ws we : PyDateTime) :
    stayDays s ws we
      ≤ max 0 (min s.exit_date.day we.day + 1 - max s.entry_date.day ws.day) := by
  by_cases h : max s.entry_date ws ≤ min s.exit_date we
  · rw [stayDays_of_clamped_le s ws we h]
    simp only [calculate_days_between]
    by_cases hlt : min s.exit_date we < max s.entry_date ws
    · rw [if_pos hlt]
      exact le_max_left _ _
    · rw [if_neg hlt, PyDateTime.day_min, PyDateTime.day_max]
      omega
  · rw [stayDays_of_clamped_empty s ws we h]
    exact le_max_left _ _

theorem days_bound_go (ws we : PyDateTime) :
    ∀ (stays : List Stay) (a : Int), List.Pairwise dayDisjoint stays →
    (∀ t ∈ stays, a < t.entry_date.day) →
    calculate_days_in_window stays ws we
      ≤ max 0 (we.day + 1 - max (a + 1) ws.day) := by
  intro stays
  induction stays with
  | nil =>
      intro a _ _
      rw [calculate_days_in_window_nil]
      exact le_max_left _ _
  | cons s rest ih =>
      intro a hpw hall
      rw [calculate_days_in_window_cons]
      obtain ⟨hhead, htail⟩ := List.pairwise_cons.mp hpw
      have h1 := stayDays_le_bound s ws we
      have hrest : ∀ t ∈ rest, max a s.exit_date.day < t.entry_date.day := by
        intro t ht
        have h4 : s.exit_date.day < t.entry_date.day := hhead t ht
        have h5 := hall t (List.mem_cons_of_mem s ht)
        omega
      have h2 := ih (max a s.exit_date.day) htail hrest
      have h3 : a < s.entry_date.day := hall s (List.mem_cons_self s rest)
      omega

theorem days_bound_pairwise (ws we : PyDateTime) (stays : List Stay)
    (hpw : List.Pairwise dayDisjoint stays) :
    calculate_days_in_window stays ws we ≤ max 0 (we.day + 1 - ws.day) := by
  cases stays with
  | nil =>
      rw [calculate_days_in_window_nil]
      exact le_max_left _ _
  | cons s rest =>
      rw [calculate_days_in_window_cons]
      obtain ⟨hhead, htail⟩ := List.pairwise_cons.mp hpw
      have h1 := stayDays_le_bound s ws we
      have hrest : ∀ t ∈ rest, s.exit_date.day < t.entry_date.day :=
        fun t ht => hhead t ht
      have h2 := days_bound_go ws we rest s.exit_date.day htail hrest
      omega

/-- C8 (amended): for stays that are chronologically day-disjoint (each
stay exits on a strictly earlier calendar day than the next one enters
— which holds in particular for reconstructed stays with no same-day
turnaround), the window total never exceeds the number of calendar days
the window spans.  Without that hypothesis the claim is false: the fold
simply adds per-stay contributions, so duplicated or same-day
overlapping stays can push the total past the window span (see the
counterexample). -/
theorem claim_C8_amended_bound (stays : List Stay) (ws we : PyDateTime)
    (hwin : ws ≤ we) (hdisj : List.Pairwise dayDisjoint stays) :
    calculate_days_in_window stays ws we ≤ we.day - ws.day + 1 := by
  have h := days_bound_pairwise ws we stays hdisj
  have hd := PyDateTime.day_le_of_le hwin
  omega

/-- Witness for the amended C8: two day-disjoint stays inside a 31-day
window. -/
theorem claim_C8_witness :
    calculate_days_in_window [⟨⟨1, 0⟩, ⟨2, 0⟩⟩, ⟨⟨5, 0⟩, ⟨6, 0⟩⟩] ⟨0, 0⟩ ⟨30, 0⟩
      ≤ (30 : Int) - 0 + 1 := by
  have h := claim_C8_amended_bound [⟨⟨1, 0⟩, ⟨2, 0⟩⟩, ⟨⟨5, 0⟩, ⟨6, 0⟩⟩]
    ⟨0, 0⟩ ⟨30, 0⟩ (by decide) (by decide)
  exact h

/-- C8 counterexample: the same one-day stay [day 0, day 0] listed
twice against the one-day window [day 0, day 0] (spanning 1 calendar
day) totals 2 days — the sum of per-stay contributions exceeds the
window span for this synthetic stay set. -/
theorem claim_C8_counterexample :
    calculate_days_in_window [⟨⟨0, 0⟩, ⟨0, 0⟩⟩, ⟨⟨0, 0⟩, ⟨0, 0⟩⟩] ⟨0, 0⟩ ⟨0, 0⟩ = 2
    ∧ ¬ calculate_days_in_window [⟨⟨0, 0⟩, ⟨0, 0⟩⟩, ⟨⟨0, 0⟩, ⟨0, 0⟩⟩] ⟨0, 0⟩ ⟨0, 0⟩
        ≤ (⟨0, 0⟩ : PyDateTime).day - (⟨0, 0⟩ : PyDateTime).day + 1 := by
  constructor
  · decide
  · decide

/-- C4: stay reconstruction follows the single-variable pending-entry
state machine: an arrival always overwrites any pending entry (most
recent entry wins), a departure with a pending entry emits exactly one
stay pairing the two and clears the pending entry, a departure with no
pending entry is discarded, and the sequence ENTRY, ENTRY, EXIT yields
exactly one stay paired with the second entry. -/
theorem claim_C4_state_machine (pending : Option Flight) (e a b x : Flight)
    (evs : List Flight)
    (ha : a.is_arrival = true) (hb : b.is_arrival = true)
    (hx1 : x.is_arrival = false) (hx2 : x.is_departure = true) :
    calculate_stays_go pending (a :: evs) = calculate_stays_go (some a) evs
    ∧ calculate_stays_go (some e) (x :: evs)
        = { entry := e, exit := x, entry_date := e.arrival_time,
            exit_date := x.departure_time } :: calculate_stays_go none evs
    ∧ calculate_stays_go none (x :: evs) = calculate_stays_go none evs
    ∧ calculate_stays [a, b, x]
        = [{ entry := b, exit := x, entry_date := b.arrival_time,
             exit_date := x.departure_time }] := by
  refine ⟨?_, ?_, ?_, ?_⟩
  · simp [calculate_stays_go, ha]
  · simp [calculate_stays_go, hx1, hx2]
  · simp [calculate_stays_go, hx1]
  · simp [calculate_stays, calculate_stays_go, ha, hb, hx1, hx2]

/-- Witness for C4 with concrete flights: two arrivals into ICN followed
by one departure produce the single stay paired with the second
arrival. -/
theorem claim_C4_witness :
    calculate_stays
      [{ date := "d1", flight := "KE 1", from_airport := "NRT",
         to_airport := "ICN", is_arrival := true, is_departure := false,
         arrival_time := some ⟨1, 0⟩, departure_time := none },
       { date := "d2", flight := "KE 2", from_airport := "SFO",
         to_airport := "ICN", is_arrival := true, is_departure := false,
         arrival_time := some ⟨3, 0⟩, departure_time := none },
       { date := "d3", flight := "KE 3", from_airport := "ICN",
         to_airport := "NRT", is_arrival := false, is_departure := true,
         arrival_time := none, departure_time := some ⟨5, 0⟩ }]
      = [{ entry := { date := "d2", flight := "KE 2", from_airport := "SFO",
                      to_airport := "ICN", is_arrival := true,
                      is_departure := false, arrival_time := some ⟨3, 0⟩,
                      departure_time := none },
           exit := { date := "d3", flight := "KE 3", from_airport := "ICN",
                     to_airport := "NRT", is_arrival := false,
                     is_departure := true, arrival_time := none,
                     departure_time := some ⟨5, 0⟩ },
           entry_date := some ⟨3, 0⟩, exit_date := some ⟨5, 0⟩ }] := by
  exact (claim_C4_state_machine none
    { date := "d3", flight := "KE 3", from_airport := "ICN",
      to_airport := "NRT", is_arrival := false, is_departure := true,
      arrival_time := none, departure_time := some ⟨5, 0⟩ }
    { date := "d1", flight := "KE 1", from_airport := "NRT",
      to_airport := "ICN", is_arrival := true, is_departure := false,
      arrival_time := some ⟨1, 0⟩, departure_time := none }
    { date := "d2", flight := "KE 2", from_airport := "SFO",
      to_airport := "ICN", is_arrival := true, is_departure := false,
      arrival_time := some ⟨3, 0⟩, departure_time := none }
    { date := "d3", flight := "KE 3", from_airport := "ICN",
      to_airport := "NRT", is_arrival := false, is_departure := true,
      arrival_time := none, departure_time := some ⟨5, 0⟩ }
    [] rfl rfl rfl rfl).2.2.2

/-- C5, evaluated at the failing input: a non-canceled arrival leg
NRT→ICN whose `Gate Arrival (Actual)` and `Landing (Actual)` cells are
both unparseable is nonetheless appended by `load_flights` as an event
with `arrival_time = None` — it is NOT excluded, contradicting the
spec's invariant that a leg with no resolvable timestamp must not be
emitted (and with two such rows the subsequent sort in `load_flights`
raises a `TypeError` comparing `None`, so the run does not continue
gracefully either). -/
theorem claim_C5_missing_timestamp_emitted :
    load_flights_row ["ICN"]
      { date := "2025-01-01", airline := "KE", flight_number := "702",
        from_airport := "NRT", to_airport := "ICN", canceled := false,
        gate_arrival_actual := none, landing_actual := none,
        gate_departure_actual := none, take_off_actual := none }
      = some { date := "2025-01-01", flight := "KE 702",
               from_airport := "NRT", to_airport := "ICN",
               is_arrival := true, is_departure := false,
               arrival_time := none, departure_time := none }
    ∧ load_flights_events ["ICN"]
      [{ date := "2025-01-01", airline := "KE", flight_number := "702",
         from_airport := "NRT", to_airport := "ICN", canceled := false,
         gate_arrival_actual := none, landing_actual := none,
         gate_departure_actual := none, take_off_actual := none }]
      = [{ date := "2025-01-01", flight := "KE 702",
           from_airport := "NRT", to_airport := "ICN",
           is_arrival := true, is_departure := false,
           arrival_time := none, departure_time := none }] := by
  constructor
  · rfl
  · rfl

theorem find?_range'_some {p : Nat → Bool} :
    ∀ {n s k : Nat}, (List.range' s n).find? p = some k →
    s ≤ k ∧ k < s + n ∧ p k = true ∧ ∀ j, s ≤ j → j < k → p j = false := by
  intro n
  induction n with
  | zero =>
      intro s k h
      simp [List.range'] at h
  | succ m ih =>
      intro s k h
      rw [List.range'_succ s m 1] at h
      by_cases hp : p s = true
      · rw [List.find?_cons_of_pos _ hp] at h
        obtain rfl : s = k := Option.some.inj h
        exact ⟨le_refl _, by omega, hp,
          fun j hj1 hj2 => ((lt_irrefl s) (lt_of_le_of_lt hj1 hj2)).elim⟩
      · rw [List.find?_cons_of_neg _ hp] at h
        obtain ⟨h1, h2, h3, h4⟩ := ih h
        refine ⟨by omega, by omega, h3, ?_⟩
        intro j hj1 hj2
        rcases Nat.eq_or_lt_of_le hj1 with heq | hlt
        · rw [← heq]
          simpa using hp
        · exact h4 j hlt hj2

theorem find?_range'_none {p : Nat → Bool} {s n : Nat}
    (h : (List.range' s n).find? p = none) :
    ∀ j, s ≤ j → j < s + n → p j = false := by
  intro j h1 h2
  have hmem : j ∈ List.range' s n := List.mem_range'_1.mpr ⟨h1, h2⟩
  simpa using List.find?_eq_none.mp h j hmem

/-- C6 (amended): the projection search of `print_future_availability`
examines the candidate dates `reference + 1 day, …, reference + 364
days` — `range(1, 365)` runs 364 iterations, one day at a time, not
365 as the claim states — computing for each candidate the usage over
the rolling window `[d - window_days + 1, d]`; it returns the first
candidate whose usage is within `quota - desired_days`, and when no
candidate within that horizon qualifies it reports a non-found outcome
while every configured desired length still receives its own result
(the run continues).  The search is a total function over a fixed
364-element list, so it always terminates. -/
theorem claim_C6_amended_search (stays : List Stay) (today : PyDateTime)
    (window_days max_days_in_window max_consecutive_days
      total_days_in_window desired_days : Int) :
    (∀ k : Nat,
      find_future_availability stays today window_days max_days_in_window
        max_consecutive_days total_days_in_window desired_days
        = .waitUntil k →
      1 ≤ k ∧ k ≤ 364
      ∧ future_days_used stays today window_days (k : Int)
          ≤ max_days_in_window - desired_days
      ∧ ∀ j : Nat, 1 ≤ j → j < k →
          ¬ future_days_used stays today window_days (j : Int)
              ≤ max_days_in_window - desired_days)
    ∧ (find_future_availability stays today window_days max_days_in_window
        max_consecutive_days total_days_in_window desired_days
        = .cannotDetermine →
      ∀ k : Nat, 1 ≤ k → k ≤ 364 →
        ¬ future_days_used stays today window_days (k : Int)
            ≤ max_days_in_window - desired_days)
    ∧ ∀ pr ∈ print_future_availability_results stays today window_days
        max_days_in_window max_consecutive_days total_days_in_window,
        pr.2 = find_future_availability stays today window_days
          max_days_in_window max_consecutive_days total_days_in_window
          pr.1 := by
  refine ⟨?_, ?_, ?_⟩
  · intro k hk
    unfold find_future_availability at hk
    by_cases h1 : desired_days > max_consecutive_days ∧ max_consecutive_days > 0
    · rw [if_pos h1] at hk
      cases hk
    · rw [if_neg h1] at hk
      by_cases h2 : total_days_in_window ≤ max_days_in_window - desired_days
      · rw [if_pos h2] at hk
        cases hk
      · rw [if_neg h2] at hk
        cases hfind : (List.range' 1 364).find? (fun (days_forward : Nat) =>
          decide (future_days_used stays today window_days (days_forward : Int)
            ≤ max_days_in_window - desired_days)) with
        | none =>
            rw [hfind] at hk
            cases hk
        | some j =>
            rw [hfind] at hk
            have hjk : j = k := by
              simpa using hk
            subst hjk
            obtain ⟨hA, hB, hC, hD⟩ := find?_range'_some hfind
            refine ⟨hA, by omega, of_decide_eq_true hC, ?_⟩
            intro j2 hj1 hj2
            exact of_decide_eq_false (hD j2 hj1 hj2)
  · intro hk k hk1 hk2
    unfold find_future_availability at hk
    by_cases h1 : desired_days > max_consecutive_days ∧ max_consecutive_days > 0
    · rw [if_pos h1] at hk
      cases hk
    · rw [if_neg h1] at hk
      by_cases h2 : total_days_in_window ≤ max_days_in_window - desired_days
      · rw [if_pos h2] at hk
        cases hk
      · rw [if_neg h2] at hk
        cases hfind : (List.range' 1 364).find? (fun (days_forward : Nat) =>
          decide (future_days_used stays today window_days (days_forward : Int)
            ≤ max_days_in_window - desired_days)) with
        | none =>
            exact of_decide_eq_false (find?_range'_none hfind k hk1 (by omega))
        | some j =>
            rw [hfind] at hk
            cases hk
  · intro pr hpr
    unfold print_future_availability_results at hpr
    by_cases hc : max_consecutive_days ≥ 60
    · rw [if_pos hc] at hpr
      simp only [List.map_cons, List.map_nil, List.mem_cons,
        List.not_mem_nil, or_false] at hpr
      rcases hpr with rfl | rfl
      · rfl
      · rfl
    · rw [if_neg hc] at hpr
      simp only [List.map_cons, List.map_nil, List.mem_cons,
        List.not_mem_nil, or_false] at hpr
      rw [hpr]

/-- Witness for the amended C6: with one stay on day 0, a 1-day window,
quota 30 and desired length 30, the search returns the first candidate
(1 day forward) and the first-match characterization holds there. -/
theorem claim_C6_witness :
    1 ≤ 1 ∧ 1 ≤ 364
    ∧ future_days_used [⟨⟨0, 0⟩, ⟨0, 0⟩⟩] ⟨0, 0⟩ 1 ((1 : Nat) : Int) ≤ 30 - 30
    ∧ ∀ j : Nat, 1 ≤ j → j < 1 →
        ¬ future_days_used [⟨⟨0, 0⟩, ⟨0, 0⟩⟩] ⟨0, 0⟩ 1 ((j : Nat) : Int)
            ≤ 30 - 30 :=
  (claim_C6_amended_search [⟨⟨0, 0⟩, ⟨0, 0⟩⟩] ⟨0, 0⟩ 1 30 60 1 30).1 1
    (by decide)

set_option maxRecDepth 8000

/-- C6 counterexample (off-by-one horizon): one stay covering days
0–364 with a 1-day window and quota = desired length.  Every candidate
`reference + 1 … reference + 364` is still over quota, so the code
reports the cannot-determine outcome, even though the candidate
`reference + 365` — inside the claimed 365-iteration horizon — does
qualify: `range(1, 365)` stops at 364 days forward. -/
theorem claim_C6_counterexample :
    find_future_availability [⟨⟨0, 0⟩, ⟨364, 0⟩⟩] ⟨0, 0⟩ 1 30 60 1 30
      = .cannotDetermine
    ∧ future_days_used [⟨⟨0, 0⟩, ⟨364, 0⟩⟩] ⟨0, 0⟩ 1 365 ≤ 30 - 30 := by
  constructor
  · decide
  · decide

/-- C7: when the consecutive cap is set (positive) and the desired stay
length exceeds it, the query is rejected as infeasible before any
search; and when the usage at the reference date itself is already
within `quota - desired_days`, the available-today outcome is returned
immediately, no forward scan. -/
theorem claim_C7_guards (stays : List Stay) (today : PyDateTime)
    (window_days max_days_in_window max_consecutive_days
      total_days_in_window desired_days : Int) :
    (desired_days > max_consecutive_days → max_consecutive_days > 0 →
      find_future_availability stays today window_days max_days_in_window
        max_consecutive_days total_days_in_window desired_days
        = .skippedInfeasible)
    ∧ (¬ (desired_days > max_consecutive_days ∧ max_consecutive_days > 0) →
      future_days_used stays today window_days 0
          ≤ max_days_in_window - desired_days →
      find_future_availability stays today window_days max_days_in_window
        max_consecutive_days (future_days_used stays today window_days 0)
        desired_days = .availableToday) := by
  constructor
  · intro h1 h2
    unfold find_future_availability
    rw [if_pos ⟨h1, h2⟩]
  · intro h1 h2
    unfold find_future_availability
    rw [if_neg h1, if_pos h2]

/-- Witness for C7: cap 60 with desired 90 is rejected; and with no
stays the reference date usage 0 allows a 30-day stay today. -/
theorem claim_C7_witness :
    find_future_availability [] ⟨0, 0⟩ 180 90 60 0 90 = .skippedInfeasible
    ∧ find_future_availability [] ⟨0, 0⟩ 180 90 60
        (future_days_used [] ⟨0, 0⟩ 180 0) 30 = .availableToday := by
  constructor
  · exact (claim_C7_guards [] ⟨0, 0⟩ 180 90 60 0 90).1 (by decide) (by decide)
  · exact (claim_C7_guards [] ⟨0, 0⟩ 180 90 60 0 30).2 (by decide) (by decide)
